import Mathlib

/-
Verification of the generic CRUD controller shared by the invoice-platform
microservices.

The embedding follows two source files:
  * `packages/common` helpers (responses, pagination, errorHandler):
    `buildPagination`, `formatPaginationResponse`, `errorHandler`,
    `ok` / `created` / `fail`;
  * the shared `BaseController` class (create / list / get / update /
    delete / restore and `buildQuery`).

Modelling conventions:
  * MongoDB documents are Lean structures over the fields the controller
    touches (`_id`, the ownership field, two payload fields `name` and
    `email`, and the bookkeeping fields).  Absent fields are `none`.
  * `req.user` is `Option UserId`; `req.user.id` is the user id string.
  * `parseInt (req.query.x)` results are modelled as `Option Int`:
    `none` stands for an absent parameter or a `NaN` parse result.
  * JavaScript truthiness is modelled explicitly where the code relies on
    it: `0`, `NaN`, `undefined` and the empty string are falsy.
  * The controller package is an ES module (`"type": "module"` in the
    generated service package.json, plain `node src/server.js`, top-level
    `import`/`export` throughout).  Two statements therefore throw:
      - `const mongoose = require('mongoose')`, the first statement of
        `buildQuery`: `require` is not defined in an ES module, so every
        call throws `ReferenceError: require is not defined` before any
        filter is built;
      - `mongoose.Types.ObjectId(req.user.id)` in the scoping branches of
        `get` / `update` / `delete` / `restore`: on the namespace of
        `await import('mongoose')` this call throws under every
        reachable install (without an ESM wrapper the CommonJS namespace
        exposes no `Types`; with one, bson's `ObjectId` is a class that
        cannot be invoked without `new` — the repository's own
        `toObjectId` helper uses `new`).
    Thrown errors are caught by the handler's `try`/`catch` and forwarded
    via `next(error)` to the centralized `errorHandler`; they carry no
    `status` property and arrive with `res.statusCode` still 200, so the
    response is a 500 envelope.  The exact TypeError message text of the
    ObjectId call varies with the installed mongoose; no theorem below
    depends on it.
  * Mongoose `updateOne` resolves to an `UpdateResult` that has a
    `matchedCount` field and NO `deletedCount` field; `deleteOne`
    resolves to a `DeleteResult` that has a `deletedCount` field and NO
    `matchedCount` field.  Reading an absent field yields `undefined`,
    and `undefined === 0` is `false` in JavaScript.  `WriteResult` below
    keeps both fields as `Option Nat` to reflect this.
  * `updateOne` / `deleteOne` / `findOne` act on the first matching
    document of the collection (list order models natural order).
  * Mongoose strips `undefined` values from `$set` payloads (strict
    mode), so a `$set` entry is applied only when its value is present.
  * The model covers controllers whose `searchFields` is the default
    `[]` (the search branch sits after the throwing `buildQuery` call and
    is unreachable anyway), and ids that pass `validateObjectId` (claims
    quantify over well-formed identifiers).
-/

namespace InvoicePlatform

/-- Identifier of an authenticated principal (`req.user.id`). -/
abbrev UserId := String

/-- Document identifier (a well-formed Mongo ObjectId). -/
abbrev DocId := Nat

/-- A persisted document, restricted to the fields the shared controller
reads or writes.  `owner` is the value of the configured ownership field
(`options.userField`, for example `user` or `userId`). -/
structure Doc where
  id : DocId
  owner : Option UserId := none
  name : Option String := none
  email : Option String := none
  createdAt : Nat := 0
  createdBy : Option UserId := none
  updatedAt : Option Nat := none
  updatedBy : Option UserId := none
  deletedAt : Option Nat := none
  deletedBy : Option UserId := none
deriving DecidableEq, Repr

/-- The persisted collection, in natural order. -/
abbrev DB := List Doc

/-- A MongoDB filter as the handlers build it: an optional `_id`
equality, an optional ownership-field equality, and an optional
`deletedAt: { $exists: b }` constraint.  (In the program the ownership
entry is never reached: the line that would assign it throws first, so
every executed filter has `ownerEq = none`; the field is kept to model
the written query shape.) -/
structure Query where
  idEq : Option DocId := none
  ownerEq : Option UserId := none
  deletedAtExists : Option Bool := none
deriving DecidableEq, Repr

/-- Whether a document satisfies a filter. -/
def Query.matches (q : Query) (d : Doc) : Bool :=
  (match q.idEq with
   | some i => d.id == i
   | none => true) &&
  (match q.ownerEq with
   | some u => d.owner == some u
   | none => true) &&
  (match q.deletedAtExists with
   | some true => d.deletedAt.isSome
   | some false => d.deletedAt.isNone
   | none => true)

/-- JavaScript `x || d` applied to a `parseInt` result: `NaN` (here
`none`) and `0` are falsy. -/
def jsOrInt : Option Int → Int → Int
  | none, d => d
  | some n, d => if n == 0 then d else n

/-- JavaScript `s || d` on an optional string: `undefined` and the empty
string are falsy. -/
def jsOrString : Option String → String → String
  | none, d => d
  | some s, d => if s == "" then d else s

/-- JavaScript truthiness of `err.status` (an optional number). -/
def jsTruthyStatus : Option Nat → Bool
  | none => false
  | some n => n != 0

/-- JavaScript `x === 0` where `x` is a possibly-absent numeric field:
`undefined === 0` is `false`. -/
def jsEqZero : Option Nat → Bool
  | some n => n == 0
  | none => false

/-- Query parameters of a list request (after `parseInt`), plus the
authenticated principal. -/
structure ListReq where
  user : Option UserId := none
  page : Option Int := none
  limit : Option Int := none
  includeDeleted : Option String := none

/-- Result of the `buildPagination` helper. -/
structure Pagination where
  page : Int
  limit : Int
  skip : Int
deriving DecidableEq, Repr

/-- The `buildPagination(req, defaultLimit, maxLimit)` helper:
`page = Math.max(1, parseInt(req.query.page) || 1)`,
`limit = Math.min(parseInt(req.query.limit) || defaultLimit, maxLimit)`,
`skip = (page - 1) * limit`.  Note there is no lower clamp on `limit`. -/
def buildPagination (req : ListReq) (defaultLimit maxLimit : Int) : Pagination :=
  let page := max 1 (jsOrInt req.page 1)
  let limit := min (jsOrInt req.limit defaultLimit) maxLimit
  { page := page, limit := limit, skip := (page - 1) * limit }

/-- Integer rendering of `Math.ceil(a / b)` for `b ≠ 0` (floating-point
division followed by ceiling). -/
def intCeilDiv (a b : Int) : Int := -(Int.fdiv (-a) b)

/-- The pagination metadata block of a list response. -/
structure PageMeta where
  page : Int
  limit : Int
  skip : Int
  total : Nat
  totalPages : Int
  hasNext : Bool
  hasPrev : Bool
deriving DecidableEq, Repr

/-- A list response: the page of documents plus pagination metadata. -/
structure PageResponse where
  data : List Doc
  pagination : PageMeta
deriving DecidableEq, Repr

/-- The `formatPaginationResponse(data, pagination, total)` helper:
`totalPages = Math.ceil(total / limit)`,
`hasNext = page * limit < total`, `hasPrev = page > 1`. -/
def formatPaginationResponse (data : List Doc) (p : Pagination) (total : Nat) : PageResponse :=
  { data := data,
    pagination :=
      { page := p.page, limit := p.limit, skip := p.skip,
        total := total,
        totalPages := intCeilDiv (total : Int) p.limit,
        hasNext := decide (p.page * p.limit < (total : Int)),
        hasPrev := decide (1 < p.page) } }

/-- An HTTP response as the envelope helpers shape it. -/
structure Envelope where
  status : Nat
  success : Bool
  message : Option String := none
deriving DecidableEq, Repr

/-- The centralized `errorHandler(err, req, res, next)` of the common
package.  Faithful to the source line
`const status = err.status || res.statusCode !== 200 ? res.statusCode : 500;`
which, by JavaScript precedence, parses as
`(err.status || res.statusCode !== 200) ? res.statusCode : 500`. -/
def errorHandler (errStatus : Option Nat) (errMessage : Option String)
    (resStatusCode : Nat) : Envelope :=
  let status := if jsTruthyStatus errStatus || resStatusCode != 200
                then resStatusCode else 500
  { status := status, success := false,
    message := some (jsOrString errMessage "Internal Server Error") }

/-- An error value thrown inside a handler's `try` block:
`requireIsNotDefined` is the ReferenceError raised by
`const mongoose = require('mongoose')` in this ES-module package;
`objectIdInvoke` is the TypeError raised by
`mongoose.Types.ObjectId(req.user.id)`. -/
inductive JsError where
  | requireIsNotDefined
  | objectIdInvoke
deriving DecidableEq, Repr

/-- The `message` property of a thrown error.  `require is not defined`
is V8's fixed ReferenceError text; the TypeError text of the ObjectId
call varies with the installed mongoose, and no theorem below depends
on it. -/
def JsError.errText : JsError → String
  | .requireIsNotDefined => "require is not defined"
  | .objectIdInvoke => "mongoose.Types.ObjectId is not a function"

/-- Outcome of a handler: a success value, a locally formatted failure
(the `fail(res, status, message)` helper), or an error thrown inside the
`try` block and forwarded to `next(error)`. -/
inductive HandlerOut (α : Type) where
  | ok (value : α)
  | fail (status : Nat) (message : String)
  | thrown (e : JsError)
deriving DecidableEq, Repr

/-- Route outcome as the client sees it: local failures keep their
status; thrown errors reach `errorHandler` with no `status` property and
with `res.statusCode` still at its default 200, hence a 500 envelope. -/
def toEnvelope {α : Type} : HandlerOut α → Envelope
  | .ok _ => { status := 200, success := true }
  | .fail s m => { status := s, success := false, message := some m }
  | .thrown e => errorHandler none (some e.errText) 200

/-- A JSON request body, restricted to the keys the model tracks.
`bodyId`, `bodyCreatedAt`, `bodyCreatedBy` are the payload's `_id`,
`createdAt`, `createdBy` entries (the ones `update` strips); `owner` is a
payload entry for the configured ownership field.  Payload entries for
`updatedAt` / `updatedBy` are not tracked: the controller overwrites both
unconditionally before persisting an update. -/
structure Body where
  bodyId : Option DocId := none
  name : Option String := none
  email : Option String := none
  owner : Option UserId := none
  bodyCreatedAt : Option Nat := none
  bodyCreatedBy : Option UserId := none
deriving DecidableEq, Repr

/-- The `BaseController` configuration object.  `userField : Bool`
records whether an ownership field is configured (the default is the
truthy string `user`; passing a null field name disables scoping).
Validators return a verdict and a message. -/
structure Options where
  userField : Bool := true
  allowPublicRead : Bool := false
  enableSoftDelete : Bool := false
  defaultLimit : Int := 10
  maxLimit : Int := 100
  validateCreate : Option (Body → Bool × String) := none
  validateUpdate : Option (Body → Bool × String) := none
  customBuildQuery : Option (ListReq → Query → Query) := none

/-- The `$set` document an update persists, after the controller spreads
the body, adds `updatedAt` / `updatedBy`, and deletes the protected keys.
A `none` entry is absent from the `$set`. -/
structure SetDoc where
  setId : Option DocId := none
  setName : Option String := none
  setEmail : Option String := none
  setOwner : Option UserId := none
  setCreatedAt : Option Nat := none
  setCreatedBy : Option UserId := none
  setUpdatedAt : Option Nat := none
  setUpdatedBy : Option UserId := none
deriving DecidableEq, Repr

/-- `const update = { ...req.body, updatedAt: new Date(), updatedBy: req.user?.id }`. -/
def spreadBody (body : Body) (now : Nat) (user : Option UserId) : SetDoc :=
  { setId := body.bodyId,
    setName := body.name,
    setEmail := body.email,
    setOwner := body.owner,
    setCreatedAt := body.bodyCreatedAt,
    setCreatedBy := body.bodyCreatedBy,
    setUpdatedAt := some now,
    setUpdatedBy := user }

/-- `delete update._id; delete update.createdAt; delete update.createdBy;`. -/
def stripProtected (u : SetDoc) : SetDoc :=
  { u with setId := none, setCreatedAt := none, setCreatedBy := none }

/-- The `$set` document the `update` handler sends to `updateOne`. -/
def buildUpdateDoc (body : Body) (now : Nat) (user : Option UserId) : SetDoc :=
  stripProtected (spreadBody body now user)

/-- Apply a `$set` document to a stored document.  Entries absent from
the `$set` (stripped or `undefined`) leave the stored field unchanged. -/
def applySet (d : Doc) (u : SetDoc) : Doc :=
  { d with
    id := u.setId.getD d.id,
    name := if u.setName.isSome then u.setName else d.name,
    email := if u.setEmail.isSome then u.setEmail else d.email,
    owner := if u.setOwner.isSome then u.setOwner else d.owner,
    createdAt := u.setCreatedAt.getD d.createdAt,
    createdBy := if u.setCreatedBy.isSome then u.setCreatedBy else d.createdBy,
    updatedAt := if u.setUpdatedAt.isSome then u.setUpdatedAt else d.updatedAt,
    updatedBy := if u.setUpdatedBy.isSome then u.setUpdatedBy else d.updatedBy }

/-- `Model.updateOne(query, ...)` applied to the collection: transform
the first matching document; return the new collection and the
`matchedCount` of the resulting `UpdateResult`. -/
def updateFirst (q : Query) (f : Doc → Doc) : DB → DB × Nat
  | [] => ([], 0)
  | d :: ds =>
    if q.matches d then (f d :: ds, 1)
    else
      let r := updateFirst q f ds
      (d :: r.1, r.2)

/-- `Model.deleteOne(query)` applied to the collection: remove the first
matching document; return the new collection and the `deletedCount` of
the resulting `DeleteResult`. -/
def deleteFirst (q : Query) : DB → DB × Nat
  | [] => ([], 0)
  | d :: ds =>
    if q.matches d then (ds, 1)
    else
      let r := deleteFirst q ds
      (d :: r.1, r.2)

/-- The object a write operation resolves to, as the JavaScript sees it:
an `UpdateResult` has `matchedCount` but no `deletedCount`, a
`DeleteResult` has `deletedCount` but no `matchedCount`; reading the
absent one yields `undefined` (`none`). -/
structure WriteResult where
  matchedCount : Option Nat := none
  deletedCount : Option Nat := none
deriving DecidableEq, Repr

/-- `BaseController.get`.  When the ownership filter would be added
(`req.user && this.options.userField && !this.options.allowPublicRead`)
the handler throws at `mongoose.Types.ObjectId(req.user.id)` and
forwards the error; otherwise the executed filter is `{_id: id}` plus
the soft-delete clause.  (The malformed-id 400 branch, which runs before
the throw, is outside the model: ids are well formed.) -/
def getOp (opts : Options) (user : Option UserId) (id : DocId) (db : DB) :
    HandlerOut Doc :=
  if user.isSome && opts.userField && !opts.allowPublicRead then
    .thrown .objectIdInvoke
  else
    let q : Query :=
      { idEq := some id,
        deletedAtExists := if opts.enableSoftDelete then some false else none }
    match db.find? q.matches with
    | some d => .ok d
    | none => .fail 404 "Document not found"

/-- `BaseController.update`.  When `req.user && this.options.userField`
holds the handler throws at `mongoose.Types.ObjectId(req.user.id)` —
before the optional validator runs.  Otherwise: optional validator,
protected-field stripping, `updateOne` on `{_id: id}` plus the
soft-delete clause, 404 when `matchedCount === 0`. -/
def updateOp (opts : Options) (user : Option UserId) (id : DocId) (body : Body)
    (now : Nat) (db : DB) : HandlerOut Unit × DB :=
  if user.isSome && opts.userField then (.thrown .objectIdInvoke, db)
  else
    let failedValidation :=
      match opts.validateUpdate with
      | some v => if (v body).1 then none else some (v body).2
      | none => none
    match failedValidation with
    | some msg => (.fail 400 msg, db)
    | none =>
      let q : Query :=
        { idEq := some id,
          deletedAtExists := if opts.enableSoftDelete then some false else none }
      let upd := buildUpdateDoc body now user
      let r := updateFirst q (fun d => applySet d upd) db
      if r.2 == 0 then (.fail 404 "Document not found", r.1)
      else (.ok (), r.1)

/-- The soft-delete `$set`: `deletedAt: new Date(), deletedBy: req.user?.id`
(an `undefined` `deletedBy` is stripped by Mongoose). -/
def markDeleted (now : Nat) (user : Option UserId) (d : Doc) : Doc :=
  { d with deletedAt := some now,
           deletedBy := if user.isSome then user else d.deletedBy }

/-- `BaseController.delete`.  When `req.user && this.options.userField`
holds the handler throws at `mongoose.Types.ObjectId(req.user.id)`.
Otherwise soft mode marks the first matching non-deleted document and
hard mode removes the first matching document; then
`if (result.matchedCount === 0 && result.deletedCount === 0)` answers
404 — on a `WriteResult` one of the two fields is always `undefined`,
so the comparison with `0` on that field is `false` and the branch is
unreachable. -/
def deleteOp (opts : Options) (user : Option UserId) (id : DocId) (now : Nat)
    (db : DB) : HandlerOut Unit × DB :=
  if user.isSome && opts.userField then (.thrown .objectIdInvoke, db)
  else
    let q0 : Query := { idEq := some id }
    let step : DB × WriteResult :=
      if opts.enableSoftDelete then
        let r := updateFirst { q0 with deletedAtExists := some false }
                   (markDeleted now user) db
        (r.1, { matchedCount := some r.2 })
      else
        let r := deleteFirst q0 db
        (r.1, { deletedCount := some r.2 })
    if jsEqZero step.2.matchedCount && jsEqZero step.2.deletedCount then
      (.fail 404 "Document not found", step.1)
    else (.ok (), step.1)

/-- The restore write: `$unset deletedAt, deletedBy` and
`$set updatedAt, updatedBy` (an `undefined` `updatedBy` is stripped). -/
def unmarkDeleted (now : Nat) (user : Option UserId) (d : Doc) : Doc :=
  { d with deletedAt := none,
           deletedBy := none,
           updatedAt := some now,
           updatedBy := if user.isSome then user else d.updatedBy }

/-- `BaseController.restore`.  400 when soft delete is not enabled (this
check runs before the scoping line); then, when
`req.user && this.options.userField` holds, the handler throws at
`mongoose.Types.ObjectId(req.user.id)`.  Otherwise `updateOne` on the
deleted-only filter `{_id: id, deletedAt: {$exists: true}}`, 404 when
`matchedCount === 0`. -/
def restoreOp (opts : Options) (user : Option UserId) (id : DocId) (now : Nat)
    (db : DB) : HandlerOut Unit × DB :=
  if !opts.enableSoftDelete then
    (.fail 400 "Soft delete is not enabled for this resource", db)
  else if user.isSome && opts.userField then (.thrown .objectIdInvoke, db)
  else
    let q : Query := { idEq := some id, deletedAtExists := some true }
    let r := updateFirst q (unmarkDeleted now user) db
    if r.2 == 0 then (.fail 404 "Deleted document not found", r.1)
    else (.ok (), r.1)

/-- `BaseController.buildQuery(req)`.  Its first statement is
`const mongoose = require('mongoose');` — but the package is an ES
module, where `require` is not defined: the method throws
`ReferenceError: require is not defined` before building any filter and
before ever invoking `options.buildQuery`. -/
def buildQuery (_opts : Options) (_req : ListReq) : Except JsError Query :=
  .error .requireIsNotDefined

/-- Insert into a list kept in descending `createdAt` order. -/
def insertDesc (d : Doc) : List Doc → List Doc
  | [] => [d]
  | e :: es => if d.createdAt > e.createdAt then d :: e :: es else e :: insertDesc d es

/-- The default list sort `{ createdAt: -1 }` (descending). -/
def sortByCreatedAtDesc : List Doc → List Doc
  | [] => []
  | d :: ds => insertDesc d (sortByCreatedAtDesc ds)

/-- `BaseController.list`: computes the pagination, then calls
`this.buildQuery(req)`, which always throws (see `buildQuery`); every
list request is therefore forwarded to the error middleware.  The `.ok`
branch carries the rest of the handler's text — soft-delete clause,
count, sorted `skip`/`limit` fetch, `formatPaginationResponse` shaping —
which is never reached. -/
def listOp (opts : Options) (req : ListReq) (db : DB) : HandlerOut PageResponse :=
  let p := buildPagination req opts.defaultLimit opts.maxLimit
  match buildQuery opts req with
  | .error e => .thrown e
  | .ok q0 =>
    let q := if opts.enableSoftDelete && req.includeDeleted != some "true" then
               { q0 with deletedAtExists := some false } else q0
    let matching := db.filter q.matches
    let docs := ((sortByCreatedAtDesc matching).drop p.skip.toNat).take p.limit.toNat
    .ok (formatPaginationResponse docs p matching.length)

/-- Outcome of the `create` handler before the error middleware:
`createdOut` is the 201 response, `failOut` a locally formatted failure,
`nextErr` an error forwarded to the centralized `errorHandler` (the
duplicate-key branch forwards `new Error(field + ' already exists')`,
which carries no `status` property).  `create` contains no `require`
call and no `ObjectId` call, so it has no throwing scoping branch. -/
inductive CreateOut where
  | createdOut (id : DocId)
  | failOut (status : Nat) (message : String)
  | nextErr (message : String)
deriving DecidableEq, Repr

/-- `BaseController.create` against the auth-service `User` collection,
whose schema declares a unique index on `email`: stamps the ownership
field from the authenticated principal (`payload[userField] =
req.user.id`, a plain string — no ObjectId call), runs the optional
validator, inserts, and converts a duplicate-key error (code 11000, key
pattern `{ email: 1 }`) into `next(new Error('email already exists'))`. -/
def createOp (opts : Options) (user : Option UserId) (body : Body)
    (newId : DocId) (now : Nat) (db : DB) : CreateOut × DB :=
  let ownerVal := if user.isSome && opts.userField then user else body.owner
  let failedValidation :=
    match opts.validateCreate with
    | some v => if (v body).1 then none else some (v body).2
    | none => none
  match failedValidation with
  | some msg => (.failOut 400 msg, db)
  | none =>
    let duplicate :=
      match body.email with
      | some e => db.any (fun d => d.email == some e)
      | none => false
    if duplicate then
      (.nextErr "email already exists", db)
    else
      let doc : Doc :=
        { id := newId, owner := ownerVal, name := body.name,
          email := body.email, createdAt := now,
          createdBy := body.bodyCreatedBy, updatedAt := some now }
      (.createdOut newId, db ++ [doc])

/-- The `create` route end to end: handler outcome composed with the
service bootstrap error middleware.  A forwarded error reaches
`errorHandler` with `res.statusCode` still at its default `200`. -/
def createEndpoint (opts : Options) (user : Option UserId) (body : Body)
    (newId : DocId) (now : Nat) (db : DB) : Envelope × DB :=
  let r := createOp opts user body newId now db
  match r.1 with
  | .createdOut _ => ({ status := 201, success := true }, r.2)
  | .failOut s m => ({ status := s, success := false, message := some m }, r.2)
  | .nextErr m => (errorHandler none (some m) 200, r.2)

/-- A controller with the default configuration: ownership field `user`,
hard delete. -/
def optsHard : Options := {}

/-- A controller with soft delete enabled (otherwise default). -/
def optsSoft : Options := { enableSoftDelete := true }

/-- A hard-delete controller with the ownership field disabled
(`userField: null`) — a configuration whose get/update/delete run
instead of throwing. -/
def optsNoOwner : Options := { userField := false }

/-- A soft-delete controller with the ownership field disabled — the one
configuration whose delete and restore run instead of throwing. -/
def optsSoftNoOwner : Options := { enableSoftDelete := true, userField := false }

/-- A document owned by principal `alice`. -/
def dOwnedA : Doc := { id := 1, owner := some "alice", name := some "Acme", createdAt := 3 }

/-- A soft-deleted document owned by `alice`. -/
def dSoftDeleted : Doc :=
  { id := 1, owner := some "alice", name := some "Acme", createdAt := 3,
    deletedAt := some 4, deletedBy := some "alice" }

/-- A stored user with email `a@x.com`, for the duplicate-key scenario. -/
def dbDupEmail : DB := [{ id := 1, owner := some "u1", email := some "a@x.com" }]

/-- A registration payload reusing the email `a@x.com`. -/
def bodyDupEmail : Body := { email := some "a@x.com", name := some "Eve" }

/-- A document last updated by principal `mallory`, for the round-trip
scenario. -/
def docPreDelete : Doc :=
  { id := 1, owner := some "alice", name := some "N", createdAt := 2,
    updatedAt := some 2, updatedBy := some "mallory" }

/-- The PATCH payload of the forged-identifier scenario. -/
def bodyForged : Body :=
  { bodyId := some 99, name := some "Bobby", bodyCreatedAt := some 77,
    bodyCreatedBy := some "eve" }

/-- The stored customer record of the forged-identifier scenario. -/
def docBob : Doc :=
  { id := 7, owner := some "alice", name := some "Bob", createdAt := 3,
    createdBy := some "alice" }

/-- C1: the claim says a delete whose identifier matches no record fails
with a 404 not-found.  In the program no delete ever answers 404: with
an authenticated principal and a configured ownership field the handler
throws at `mongoose.Types.ObjectId(req.user.id)` and answers 500; and in
the configurations where the delete does run (unauthenticated request,
or ownership disabled), the 404 branch tests
`result.matchedCount === 0 && result.deletedCount === 0` on a result
that never carries both fields, so a second delete of the same
identifier — and even a delete on an empty collection — still answers
with the success acknowledgement. -/
theorem delete_notFound_branch_unreachable :
    deleteOp optsSoft (some "alice") 1 5 [dOwnedA] = (.thrown .objectIdInvoke, [dOwnedA])
    ∧ (toEnvelope (deleteOp optsSoft (some "alice") 1 5 [dOwnedA]).1).status = 500
    ∧ deleteOp optsSoft none 1 5 [dOwnedA] = (.ok (), [markDeleted 5 none dOwnedA])
    ∧ deleteOp optsSoft none 1 6 [markDeleted 5 none dOwnedA]
        = (.ok (), [markDeleted 5 none dOwnedA])
    ∧ deleteOp optsNoOwner (some "alice") 1 6 ([] : DB) = (.ok (), []) := by
  decide

/-- C3: the claim says the centralized error handler answers with
`err.status` when the error carries one.  By JavaScript operator
precedence the handler instead answers with `res.statusCode` (still the
default 200) whenever `err.status` is truthy; the default-500 half of
the claim does hold. -/
theorem errorHandler_ignores_err_status :
    errorHandler (some 404) (some "Document not found") 200
      = { status := 200, success := false, message := some "Document not found" }
    ∧ errorHandler none (some "boom") 200
      = { status := 500, success := false, message := some "boom" } := by
  decide

/-- C4 counterexample: the claim says the effective limit is clamped to
`[1, maxLimit]` and never falls below 1; a requested limit of `-5`
(default limit 10, max 100) passes straight through `Math.min`. -/
theorem pagination_limit_not_clamped_below :
    (buildPagination { limit := some (-5) } 10 100).limit = -5
    ∧ ¬ (1 ≤ (buildPagination { limit := some (-5) } 10 100).limit) := by
  decide

/-- C2 counterexample: the claim says a duplicate-key create answers
with a 409 conflict; registering a second user with the stored email
`a@x.com` instead reaches the centralized handler as a plain `Error`
without a `status` property, and is answered with a 500 (the message
does name the `email` field). -/
theorem duplicate_email_create_not_conflict :
    (createEndpoint optsHard (some "u2") bodyDupEmail 2 7 dbDupEmail).1.status ≠ 409
    ∧ (createEndpoint optsHard (some "u2") bodyDupEmail 2 7 dbDupEmail).1.status = 500
    ∧ (createEndpoint optsHard (some "u2") bodyDupEmail 2 7 dbDupEmail).1.message
        = some "email already exists" := by
  decide

/-- C6: the claim says B's get/update/delete answer 404 and B's list
omits A's record.  A's record is indeed never returned nor modified, but
not via 404s: `bob`'s get, update and delete throw at
`mongoose.Types.ObjectId(req.user.id)` before any database access, and
his list throws at `require('mongoose')` inside `buildQuery`; all four
operations answer 500. -/
theorem ownership_scoped_requests_throw :
    getOp optsHard (some "bob") 1 [dOwnedA] = .thrown .objectIdInvoke
    ∧ updateOp optsHard (some "bob") 1 { name := some "X" } 9 [dOwnedA]
        = (.thrown .objectIdInvoke, [dOwnedA])
    ∧ deleteOp optsHard (some "bob") 1 9 [dOwnedA] = (.thrown .objectIdInvoke, [dOwnedA])
    ∧ listOp optsHard { user := some "bob" } [dOwnedA] = .thrown .requireIsNotDefined
    ∧ (toEnvelope (getOp optsHard (some "bob") 1 [dOwnedA])).status = 500
    ∧ (toEnvelope (listOp optsHard { user := some "bob" } [dOwnedA])).status = 500 := by
  decide

/-- C7: the claim says a soft-deleted record is list-excluded,
404-invisible to get/update/delete, and reachable via `includeDeleted`
or restore.  Under the default configuration every one of those
operations issued by the authenticated owner answers 500 instead: get,
update, delete and restore throw at
`mongoose.Types.ObjectId(req.user.id)`, and list — with or without
`includeDeleted='true'` — throws at `require('mongoose')`. -/
theorem soft_deleted_record_operations_throw :
    getOp optsSoft (some "alice") 1 [dSoftDeleted] = .thrown .objectIdInvoke
    ∧ updateOp optsSoft (some "alice") 1 { name := some "X" } 9 [dSoftDeleted]
        = (.thrown .objectIdInvoke, [dSoftDeleted])
    ∧ deleteOp optsSoft (some "alice") 1 9 [dSoftDeleted]
        = (.thrown .objectIdInvoke, [dSoftDeleted])
    ∧ restoreOp optsSoft (some "alice") 1 9 [dSoftDeleted]
        = (.thrown .objectIdInvoke, [dSoftDeleted])
    ∧ listOp optsSoft { user := some "alice" } [dSoftDeleted] = .thrown .requireIsNotDefined
    ∧ listOp optsSoft { user := some "alice", includeDeleted := some "true" } [dSoftDeleted]
        = .thrown .requireIsNotDefined
    ∧ (toEnvelope (getOp optsSoft (some "alice") 1 [dSoftDeleted])).status = 500 := by
  decide

/-- C2 amended: a create that violates the unique email index is
answered through the centralized error handler with a 500 envelope whose
message names the offending field (`email already exists`) — not with a
409, since the forwarded `Error` carries no `status` property. -/
theorem duplicate_email_create_yields_500_naming_field
    (opts : Options) (user : Option UserId) (body : Body) (newId : DocId)
    (now : Nat) (db : DB) (e : String)
    (hv : opts.validateCreate = none)
    (he : body.email = some e)
    (hdup : ∃ d ∈ db, d.email = some e) :
    createEndpoint opts user body newId now db
      = ({ status := 500, success := false, message := some "email already exists" }, db) := by
  obtain ⟨d, hd, hde⟩ := hdup
  have hany : db.any (fun d => d.email == some e) = true :=
    List.any_eq_true.mpr ⟨d, hd, by simp [hde]⟩
  simp [createEndpoint, createOp, hv, he, hany, errorHandler, jsOrString,
    jsTruthyStatus]

/-- Witness for C2 amended: the duplicate-registration scenario on the
concrete one-user collection. -/
theorem duplicate_email_create_yields_500_naming_field_witness :
    (optsHard.validateCreate = none
     ∧ bodyDupEmail.email = some "a@x.com"
     ∧ ∃ d ∈ dbDupEmail, d.email = some "a@x.com")
    ∧ createEndpoint optsHard (some "u2") bodyDupEmail 2 7 dbDupEmail
        = ({ status := 500, success := false, message := some "email already exists" },
           dbDupEmail) :=
  ⟨⟨rfl, rfl, by decide⟩,
   duplicate_email_create_yields_500_naming_field optsHard (some "u2") bodyDupEmail
     2 7 dbDupEmail "a@x.com" rfl rfl (by decide)⟩

/-- C4 amended: `skip = (page - 1) * limit`, `page` is clamped to a
minimum of 1 and defaults to 1 when absent or non-numeric, and
`limit ≤ maxLimit`; but the lower bound on the limit only holds when the
requested limit is absent, non-numeric, zero or non-negative — there is
no lower clamp, so a negative requested limit passes through. -/
theorem pagination_amended (req : ListReq) (dl ml : Int)
    (hdl : 1 ≤ dl) (hml : 1 ≤ ml) :
    1 ≤ (buildPagination req dl ml).page
    ∧ (req.page = none → (buildPagination req dl ml).page = 1)
    ∧ (buildPagination req dl ml).skip
        = ((buildPagination req dl ml).page - 1) * (buildPagination req dl ml).limit
    ∧ (buildPagination req dl ml).limit ≤ ml
    ∧ ((req.limit = none ∨ ∃ n, req.limit = some n ∧ 0 ≤ n)
        → 1 ≤ (buildPagination req dl ml).limit) := by
  have hp : (buildPagination req dl ml).page = max 1 (jsOrInt req.page 1) := rfl
  have hlim : (buildPagination req dl ml).limit = min (jsOrInt req.limit dl) ml := rfl
  refine ⟨?_, ?_, rfl, ?_, ?_⟩
  · rw [hp]; exact le_max_left _ _
  · intro h
    rw [hp, h]
    simp [jsOrInt]
  · rw [hlim]; exact min_le_right _ _
  · intro h
    rw [hlim]
    rcases h with h | ⟨n, hn, hn0⟩
    · rw [h]
      simp only [jsOrInt]
      exact le_min hdl hml
    · rw [hn]
      simp only [jsOrInt]
      by_cases hz : n = 0
      · simp only [hz]
        simp only [beq_self_eq_true, if_true]
        exact le_min hdl hml
      · have : (n == 0) = false := by simp [hz]
        rw [this]
        simp only [Bool.false_eq_true, if_false]
        exact le_min (by omega) hml

/-- Witness for C4 amended: the default request (no page, no limit) with
default limit 10 and max limit 100. -/
theorem pagination_amended_witness :
    ((1 : Int) ≤ 10 ∧ (1 : Int) ≤ 100)
    ∧ (1 ≤ (buildPagination {} 10 100).page
       ∧ (({} : ListReq).page = none → (buildPagination {} 10 100).page = 1)
       ∧ (buildPagination {} 10 100).skip
           = ((buildPagination {} 10 100).page - 1) * (buildPagination {} 10 100).limit
       ∧ (buildPagination {} 10 100).limit ≤ 100
       ∧ ((({} : ListReq).limit = none ∨ ∃ n, ({} : ListReq).limit = some n ∧ 0 ≤ n)
           → 1 ≤ (buildPagination {} 10 100).limit)) :=
  ⟨⟨by decide, by decide⟩, pagination_amended {} 10 100 (by decide) (by decide)⟩

/-- C5: the claim describes the page of records and pagination metadata
a list returns; in the program no list request ever returns them.  The
`list` handler calls `this.buildQuery(req)`, whose first statement
`require('mongoose')` throws in this ES-module package, so every list —
for every configuration, request and collection — is answered with a 500
envelope (`require is not defined`) and no data array or metadata.
(Independently, `buildPagination` does not clamp a negative requested
limit, under which the claimed `length ≤ limit` bound could not hold
even if the filter were built.) -/
theorem list_always_throws_at_require (opts : Options) (req : ListReq) (db : DB) :
    listOp opts req db = .thrown .requireIsNotDefined
    ∧ toEnvelope (listOp opts req db)
        = { status := 500, success := false, message := some "require is not defined" } :=
  ⟨rfl, rfl⟩

/-- C8: the claim's forged-`_id` PATCH is an authenticated request
against an ownership-scoped controller; the handler throws at
`mongoose.Types.ObjectId(req.user.id)` before `updateOne` runs and
answers 500 with the record unchanged — the update never succeeds and
the name never becomes `Bobby`.  The stripping logic itself is in the
code: in a configuration where the update does run (ownership disabled),
the forged `_id` and creation bookkeeping are stripped while the name is
applied. -/
theorem forged_id_patch_throws :
    updateOp optsHard (some "alice") docBob.id bodyForged 9 [docBob]
      = (.thrown .objectIdInvoke, [docBob])
    ∧ (toEnvelope
        (updateOp optsHard (some "alice") docBob.id bodyForged 9 [docBob]).1).status = 500
    ∧ updateOp optsNoOwner (some "alice") docBob.id bodyForged 9 [docBob]
        = (.ok (), [applySet docBob (buildUpdateDoc bodyForged 9 (some "alice"))])
    ∧ (applySet docBob (buildUpdateDoc bodyForged 9 (some "alice"))).id = docBob.id
    ∧ (applySet docBob (buildUpdateDoc bodyForged 9 (some "alice"))).createdAt
        = docBob.createdAt
    ∧ (applySet docBob (buildUpdateDoc bodyForged 9 (some "alice"))).createdBy
        = docBob.createdBy
    ∧ (applySet docBob (buildUpdateDoc bodyForged 9 (some "alice"))).name = some "Bobby" := by
  decide

/-- C9: the claim's delete/restore round trip, issued by the
authenticated owner under the default configuration, never executes:
both handlers throw at `mongoose.Types.ObjectId(req.user.id)` and answer
500, leaving the record untouched.  And in the one configuration where
the round trip does execute (ownership disabled), the restore also
rewrites `updatedBy`, so the result is not the pre-delete state
except-for-`updatedAt`. -/
theorem soft_delete_restore_roundtrip_throws :
    deleteOp optsSoft (some "alice") 1 5 [docPreDelete]
      = (.thrown .objectIdInvoke, [docPreDelete])
    ∧ restoreOp optsSoft (some "alice") 1 6 [docPreDelete]
        = (.thrown .objectIdInvoke, [docPreDelete])
    ∧ (toEnvelope (deleteOp optsSoft (some "alice") 1 5 [docPreDelete]).1).status = 500
    ∧ deleteOp optsSoftNoOwner (some "alice") 1 5 [docPreDelete]
        = (.ok (), [markDeleted 5 (some "alice") docPreDelete])
    ∧ restoreOp optsSoftNoOwner (some "alice") 1 6 [markDeleted 5 (some "alice") docPreDelete]
        = (.ok (), [unmarkDeleted 6 (some "alice") (markDeleted 5 (some "alice") docPreDelete)])
    ∧ (unmarkDeleted 6 (some "alice") (markDeleted 5 (some "alice") docPreDelete)).updatedBy
        = some "alice"
    ∧ docPreDelete.updatedBy = some "mallory" := by
  decide

/-- C10: the claim says `buildQuery` hands the ownership-scoped base
query to the configured augmentation function and uses its return value
as the entire list filter.  The method's first statement
`const mongoose = require('mongoose')` throws before any of that: the
augmentation function is never invoked, no list filter is ever built,
and every list answers 500 — identically whether an augmentation is
configured or not. -/
theorem custom_buildQuery_never_invoked (opts : Options) (req : ListReq) (db : DB)
    (f : ListReq → Query → Query) :
    buildQuery opts req = .error .requireIsNotDefined
    ∧ listOp { opts with customBuildQuery := some f } req db
        = listOp { opts with customBuildQuery := none } req db
    ∧ listOp opts req db = .thrown .requireIsNotDefined :=
  ⟨rfl, rfl, rfl⟩

end InvoicePlatform
